import Mathlib

/-!
Shallow embedding of the agent translation layer of `src/app.py`:
the response normalizer `extract_text`, the payload probing list
`candidate_payloads`, the profile builders `num_from_str` / `build_profile`,
the token exchange `get_iam_token`, and the trial loop `call_agent`.
Python JSON-like values are modelled by the inductive `Json`; Python `None`
is `Json.null`; Python exceptions are modelled by `Except` results.
-/

/-- JSON-like Python value: dict, list, str, int, float, bool, None.
Floats are modelled as rationals. -/
inductive Json where
  | null
  | bool (b : Bool)
  | int (n : Int)
  | float (q : Rat)
  | str (s : String)
  | arr (elems : List Json)
  | obj (kvs : List (String × Json))

/-- Python dict lookup `d.get(k)` (keys are unique; first match wins). -/
def objGet : List (String × Json) → String → Option Json
  | [], _ => none
  | (k, v) :: rest, key => if k = key then some v else objGet rest key

/-- Lookup a key of a `Json.obj`; `none` on any other shape. -/
def jGet : Json → String → Option Json
  | .obj kvs, k => objGet kvs k
  | _, _ => none

/-- Python truthiness of a JSON-like value. -/
def truthy : Json → Bool
  | .null => false
  | .bool b => b
  | .int n => n != 0
  | .float q => q != 0
  | .str s => s != ""
  | .arr l => !l.isEmpty
  | .obj l => !l.isEmpty

/-- Python whitespace characters stripped by `str.strip()`. -/
def pySpace (c : Char) : Bool :=
  c = ' ' || c = '\t' || c = '\n' || c = '\r' || c = '\x0b' || c = '\x0c'

/-- Truthiness of `s.strip()`: some character of `s` is not whitespace. -/
def stripTruthy (s : String) : Bool :=
  s.toList.any (fun c => !pySpace c)

/-- Lower-case hexadecimal digit. -/
def hexDigit (n : Nat) : Char :=
  if n < 10 then Char.ofNat (48 + n) else Char.ofNat (87 + n)

/-- JSON string escaping as done by `json.dumps(..., ensure_ascii=False)`. -/
def escChar (c : Char) : String :=
  if c = '"' then "\\\""
  else if c = '\\' then "\\\\"
  else if c = '\n' then "\\n"
  else if c = '\r' then "\\r"
  else if c = '\t' then "\\t"
  else if c = '\x08' then "\\b"
  else if c = '\x0c' then "\\f"
  else if c.toNat < 32 then
    "\\u00" ++ String.mk [hexDigit (c.toNat / 16), hexDigit (c.toNat % 16)]
  else String.mk [c]

/-- Quote and escape a string for JSON output. -/
def escapeString (s : String) : String :=
  "\"" ++ String.join (s.toList.map escChar) ++ "\""

/-- A run of `n` spaces. -/
def spacesN (n : Nat) : String := String.mk (List.replicate n ' ')

/-- Left-pad a digit string with zeros to length `k`. -/
def padZeros (s : String) (k : Nat) : String :=
  String.mk (List.replicate (k - s.length) '0') ++ s

/-- Python `repr` of a float that is an exact decimal (the only floats the
program produces); rationals with other denominators cannot arise from
Python floats and get a plain fraction rendering. -/
def floatRepr (q : Rat) : String :=
  let sign := if q.num < 0 then "-" else ""
  let n := q.num.natAbs
  if q.den = 1 then sign ++ toString n ++ ".0"
  else
    match (List.range 400).find? (fun k => q.den ∣ 10 ^ k) with
    | some k =>
        let scaled := n * 10 ^ k / q.den
        sign ++ toString (scaled / 10 ^ k) ++ "." ++
          padZeros (toString (scaled % 10 ^ k)) k
    | none => sign ++ toString n ++ "/" ++ toString q.den

mutual

/-- Model of `json.dumps(j, ensure_ascii=False, indent=2)` at indentation
level `ind` (the call sites use level 0). -/
def dumps2 : Json → Nat → String
  | .null, _ => "null"
  | .bool true, _ => "true"
  | .bool false, _ => "false"
  | .int n, _ => toString n
  | .float q, _ => floatRepr q
  | .str s, _ => escapeString s
  | .arr [], _ => "[]"
  | .arr (x :: xs), ind =>
      "[\n" ++ dumpsItems (x :: xs) (ind + 2) ++ "\n" ++ spacesN ind ++ "]"
  | .obj [], _ => "\x7b\x7d"
  | .obj (kv :: kvs), ind =>
      "\x7b\n" ++ dumpsFields (kv :: kvs) (ind + 2) ++ "\n" ++ spacesN ind ++ "\x7d"

/-- Array items, one per line, comma-separated. -/
def dumpsItems : List Json → Nat → String
  | [], _ => ""
  | [x], ind => spacesN ind ++ dumps2 x ind
  | x :: y :: xs, ind =>
      spacesN ind ++ dumps2 x ind ++ ",\n" ++ dumpsItems (y :: xs) ind

/-- Object fields, one per line, comma-separated. -/
def dumpsFields : List (String × Json) → Nat → String
  | [], _ => ""
  | [(k, v)], ind => spacesN ind ++ escapeString k ++ ": " ++ dumps2 v ind
  | (k, v) :: kv :: kvs, ind =>
      spacesN ind ++ escapeString k ++ ": " ++ dumps2 v ind ++ ",\n" ++
        dumpsFields (kv :: kvs) ind

end

/-- Python exceptions that `extract_text` can raise. -/
inductive PyErr where
  | attributeError
  | typeError
deriving DecidableEq

/-- Python iteration over a value, as used by `for c in (m.get("content") or [])`
when the value is truthy: lists yield elements, strings yield one-character
strings, dicts yield their keys; other values raise `TypeError`. -/
def pyIterate : Json → Except PyErr (List Json)
  | .arr xs => .ok xs
  | .str s => .ok (s.toList.map (fun c => Json.str (String.mk [c])))
  | .obj kvs => .ok (kvs.map (fun kv => Json.str kv.1))
  | _ => .error .typeError

/-- The comprehension `[b.get("text") for b in l if isinstance(b, dict) and
isinstance(b.get("text"), str)]`, shared by the generic, messages-content and
choices-content paths of `extract_text`. -/
def contentTexts (l : List Json) : List String :=
  l.filterMap (fun c =>
    match c with
    | .obj kvs =>
        match objGet kvs "text" with
        | some (.str t) => some t
        | _ => none
    | _ => none)

/-- The `buf` loop of `extract_text` over `output.messages`: for each entry
`m`, iterate `m.get("content") or []` collecting dict entries' string `text`
fields; a non-dict entry raises `AttributeError` at `m.get`. -/
def msgsBuf : List Json → Except PyErr (List String)
  | [] => .ok []
  | .obj kvs :: rest =>
      match (match objGet kvs "content" with
             | some c => if truthy c then pyIterate c else .ok []
             | none => .ok []) with
      | .error e => .error e
      | .ok elems =>
          match msgsBuf rest with
          | .error e => .error e
          | .ok restBuf => .ok (contentTexts elems ++ restBuf)
  | _ :: _ => .error .attributeError

/-- The `output.messages` branch of the agent-style path. -/
def tryOutputMessages (out : List (String × Json)) : Except PyErr (Option String) :=
  match objGet out "messages" with
  | some (.arr msgs) =>
      match msgsBuf msgs with
      | .error e => .error e
      | .ok buf =>
          if buf.isEmpty then .ok none
          else .ok (some (String.intercalate "\n\n" buf))
  | _ => .ok none

/-- The `output.generic` branch of the agent-style path. -/
def tryOutputGeneric (out : List (String × Json)) : Except PyErr (Option String) :=
  match objGet out "generic" with
  | some (.arr gen) =>
      let texts := contentTexts gen
      if texts.isEmpty then tryOutputMessages out
      else .ok (some (String.intercalate "\n\n" texts))
  | _ => tryOutputMessages out

/-- The agent-style path of `extract_text`: `output.text` when a non-blank
string, else generic, else messages. -/
def tryOutput (kvs : List (String × Json)) : Except PyErr (Option String) :=
  match objGet kvs "output" with
  | some (.obj out) =>
      match objGet out "text" with
      | some (.str t) =>
          if stripTruthy t then .ok (some t) else tryOutputGeneric out
      | _ => tryOutputGeneric out
  | _ => .ok none

/-- The FM chat-style path: `choices[0].get("message", {}).get("content")`;
a non-dict `choices[0]`, or a present non-dict `message` value, raises
`AttributeError` at the subsequent `.get`. -/
def tryChoices (kvs : List (String × Json)) : Except PyErr (Option String) :=
  match objGet kvs "choices" with
  | some (.arr (hd :: _)) =>
      match hd with
      | .obj hkvs =>
          match (match objGet hkvs "message" with
                 | some v => v
                 | none => Json.obj []) with
          | .obj mkvs =>
              match objGet mkvs "content" with
              | some (.str s) => .ok (if stripTruthy s then some s else none)
              | some (.arr l) =>
                  let texts := contentTexts l
                  .ok (if texts.isEmpty then none
                       else some (String.intercalate "\n\n" texts))
              | _ => .ok none
          | _ => .error .attributeError
      | _ => .error .attributeError
  | _ => .ok none

/-- Python `x or y` on optional values from `.get` (left operand if truthy). -/
def pyOr (a b : Option Json) : Option Json :=
  match a with
  | some v => if truthy v then some v else b
  | none => b

/-- The FM text-style scan over `results[]`: first non-blank string among
`generated_text or output or text` of each dict entry. -/
def resultsScan : List Json → Option String
  | [] => none
  | .obj ikvs :: rest =>
      match pyOr (pyOr (objGet ikvs "generated_text") (objGet ikvs "output"))
              (objGet ikvs "text") with
      | some (.str t) => if stripTruthy t then some t else resultsScan rest
      | _ => resultsScan rest
  | _ :: rest => resultsScan rest

/-- The FM text-style path of `extract_text`. -/
def tryResults (kvs : List (String × Json)) : Option String :=
  match objGet kvs "results" with
  | some (.arr res) => resultsScan res
  | _ => none

/-- Model of `extract_text` (src/app.py lines 268-321): the priority cascade
agent-style, then chat-style, then text-style, then the indented JSON dump.
The result is `Except` because two of the branches can raise. -/
def extract_text (j : Json) : Except PyErr String :=
  match j with
  | .obj kvs =>
      match tryOutput kvs with
      | .error e => .error e
      | .ok (some s) => .ok s
      | .ok none =>
          match tryChoices kvs with
          | .error e => .error e
          | .ok (some s) => .ok s
          | .ok none =>
              match tryResults kvs with
              | some s => .ok s
              | none => .ok (dumps2 j 0)
  | _ => .ok (dumps2 j 0)

/-- Model of `candidate_payloads` (src/app.py lines 326-354): the 7 request
body shapes, in the source's fixed order. -/
def candidate_payloads (user_text : String) (vars : List (String × Json)) :
    List Json :=
  [Json.obj [("input", Json.obj
      [("messages", Json.arr [Json.obj
          [("role", Json.str "user"), ("content", Json.str user_text)]]),
       ("variables", Json.obj vars)])],
   Json.obj [("input", Json.obj
      [("messages", Json.arr [Json.obj
          [("role", Json.str "user"),
           ("content", Json.arr [Json.obj
              [("type", Json.str "input_text"), ("text", Json.str user_text)]])]]),
       ("variables", Json.obj vars)])],
   Json.obj [("input", Json.obj
      [("messages", Json.arr [Json.obj
          [("role", Json.str "user"),
           ("content", Json.arr [Json.obj
              [("type", Json.str "text"), ("text", Json.str user_text)]])]]),
       ("variables", Json.obj vars)])],
   Json.obj [("input", Json.arr [Json.obj
      [("role", Json.str "user"), ("content", Json.str user_text)]]),
     ("variables", Json.obj vars)],
   Json.obj [("input", Json.arr [Json.obj
      [("role", Json.str "user"),
       ("content", Json.arr [Json.obj
          [("type", Json.str "text"), ("text", Json.str user_text)]])]]),
     ("variables", Json.obj vars)],
   Json.obj [("messages", Json.arr [Json.obj
      [("role", Json.str "user"), ("content", Json.str user_text)]]),
     ("variables", Json.obj vars)],
   Json.obj [("input", Json.obj
      [("text", Json.str user_text), ("variables", Json.obj vars)])]]

/-- Value of a digit list read in base 10. -/
def digitsVal (l : List Char) : Nat :=
  List.foldl (fun acc c => acc * 10 + (c.toNat - 48)) 0 l

/-- Python `float(s)` on a string made only of digits and dots: defined
exactly when there is at least one digit and at most one dot. -/
def pyFloatOfFiltered (l : List Char) : Option Rat :=
  if l.any Char.isDigit && l.count '.' ≤ 1 then
    let ip := l.takeWhile (fun c => c ≠ '.')
    let fp := (l.dropWhile (fun c => c ≠ '.')).drop 1
    some ((digitsVal ip : Rat) + (digitsVal fp : Rat) / ((10 : Rat) ^ fp.length))
  else none

/-- Model of `num_from_str` (src/app.py lines 221-225) with the default
argument `None`: keep the digit and dot characters of `s` in order, convert
with `float`, and return the default `none` when that raises. -/
def num_from_str (s : String) : Option Rat :=
  pyFloatOfFiltered (s.toList.filter (fun c => c.isDigit || c = '.'))

/-- The `side.get(key, "")` then `num_from_str(...)` step of `build_profile`.
`num_from_str` is annotated to take `str`; a non-string stored value makes
its comprehension raise internally, so the default `none` is returned. -/
def getHW (side : List (String × Json)) (key : String) : Option Rat :=
  match objGet side key with
  | some (.str s) => num_from_str s
  | some _ => none
  | none => num_from_str ""

/-- The comprehension `{k: v for k, v in prof.items() if v is not None}`,
keeping non-`None` entries in insertion order. A Python `None` value appears
here either as `none` (helper returned the default) or as `Json.null`
(the raw dict stored `None` under the key). -/
def dropNone : List (String × Option Json) → List (String × Json)
  | [] => []
  | (_, some Json.null) :: rest => dropNone rest
  | (k, some v) :: rest => (k, v) :: dropNone rest
  | (_, none) :: rest => dropNone rest

/-- Model of `build_profile` (src/app.py lines 228-237). -/
def build_profile (side : List (String × Json)) : List (String × Json) :=
  dropNone
    [("age", objGet side "age"),
     ("sex", objGet side "sex"),
     ("height_cm", (getHW side "height").map Json.float),
     ("weight_kg", (getHW side "weight").map Json.float),
     ("activity", objGet side "activity"),
     ("goal", objGet side "goal")]

/-- An HTTP response: status, body parsed as JSON when possible, raw text. -/
structure HttpResp where
  status : Nat
  jsonBody : Option Json
  text : String

/-- `requests.Response.ok`: status code below 400. -/
def respOk (r : HttpResp) : Bool := r.status < 400

/-- Outcome of one network attempt: a response, or a raised exception
(timeout or transport error). -/
inductive NetResult where
  | response (r : HttpResp)
  | raised

/-- Failure modes of `get_iam_token`: `raise_for_status` on a non-success
status, an unparseable body, a non-dict body, or a missing `access_token`. -/
inductive AuthErr where
  | httpError (status : Nat)
  | jsonError
  | typeError
  | keyError
deriving DecidableEq

/-- Model of `get_iam_token` (src/app.py lines 204-216): `raise_for_status`
then `r.json()["access_token"]`, with the identity endpoint's response as
input. -/
def get_iam_token (idResp : HttpResp) : Except AuthErr Json :=
  if 400 ≤ idResp.status then .error (.httpError idResp.status)
  else
    match idResp.jsonBody with
    | none => .error .jsonError
    | some (.obj kvs) =>
        match objGet kvs "access_token" with
        | some v => .ok v
        | none => .error .keyError
    | some _ => .error .typeError

/-- The dict `{"status_code": ..., "body": ...}` recorded as `last_error`:
body is the parsed JSON when parseable, else the first 1500 characters of
the raw text. -/
def mkLastErr (r : HttpResp) : Json :=
  Json.obj [("status_code", Json.int r.status),
            ("body", match r.jsonBody with
                     | some j => j
                     | none => Json.str (r.text.take 1500))]

/-- Outcome of `call_agent`: a reply string, the `RuntimeError` with its
diagnostic context, a propagated request exception, or a propagated
`AuthErr` from the token step. -/
inductive CallOutcome where
  | reply (s : String)
  | agentCallError (url : String) (lastPayload : Option Json) (lastErr : Option Json)
  | raised
  | authError (e : AuthErr)

/-- The success branch of the trial loop: `extract_text(r.json())`, with the
bare `except` falling back to `r.text` when JSON parsing or the extractor
raises. -/
def successReply (r : HttpResp) : String :=
  match r.jsonBody with
  | some j =>
      match extract_text j with
      | .ok s => s
      | .error _ => r.text
  | none => r.text

/-- The `for payload in candidate_payloads(...)` loop of `call_agent`:
`net i` is the endpoint's behavior on the `i`-th request sent. Returns the
outcome and the list of payloads actually posted. -/
def callLoop (url : String) (net : Nat → NetResult) :
    List Json → Nat → Option Json → Option Json → CallOutcome × List Json
  | [], _, lastPayload, lastErr => (.agentCallError url lastPayload lastErr, [])
  | p :: rest, i, _, _ =>
      match net i with
      | .raised => (.raised, [p])
      | .response r =>
          if respOk r then (.reply (successReply r), [p])
          else
            let next := callLoop url net rest (i + 1) (some p) (some (mkLastErr r))
            (next.1, p :: next.2)

/-- The `variables` mapping built by `call_agent` (src/app.py lines 367-369):
empty unless the profile is sent and non-empty. -/
def mkVariables (send_profile : Bool) (profile_vars : List (String × Json)) :
    List (String × Json) :=
  if send_profile && !profile_vars.isEmpty then [("profile", Json.obj profile_vars)]
  else []

/-- Model of `call_agent` (src/app.py lines 359-392): token step, variables
wrapping, then the payload trial loop. `idResp` is the identity endpoint's
response, `net` the agent endpoint's behavior per posted request. Returns
the outcome together with the payloads actually posted. -/
def call_agent (url : String) (idResp : HttpResp) (net : Nat → NetResult)
    (user_text : String) (profile_vars : List (String × Json))
    (send_profile : Bool) : CallOutcome × List Json :=
  match get_iam_token idResp with
  | .error e => (.authError e, [])
  | .ok _ =>
      callLoop url net
        (candidate_payloads user_text (mkVariables send_profile profile_vars))
        0 none none

/-- Values Python can iterate without a `TypeError`: list, string, dict. -/
def iterSafe : Json → Bool
  | .arr _ => true
  | .str _ => true
  | .obj _ => true
  | _ => false

/-- Entries of an `output.messages` list on which the `buf` loop cannot
raise: dicts whose `content`, when truthy, is iterable. -/
def msgsSafe : List Json → Bool
  | [] => true
  | .obj kvs :: rest =>
      (match objGet kvs "content" with
       | some c => !truthy c || iterSafe c
       | none => true) && msgsSafe rest
  | _ :: _ => false

/-- The agent-style path cannot raise on `out`. -/
def outSafe (out : List (String × Json)) : Bool :=
  match objGet out "messages" with
  | some (.arr msgs) => msgsSafe msgs
  | _ => true

/-- The chat-style path cannot raise: `choices`, when a non-empty list, has
a dict head whose `message` value, when present, is a dict. -/
def choicesSafe (kvs : List (String × Json)) : Bool :=
  match objGet kvs "choices" with
  | some (.arr (hd :: _)) =>
      match hd with
      | .obj hkvs =>
          match objGet hkvs "message" with
          | some (.obj _) => true
          | none => true
          | some _ => false
      | _ => false
  | _ => true

/-- Inputs on which no branch of `extract_text` can raise. -/
def extractSafe : Json → Bool
  | .obj kvs =>
      (match objGet kvs "output" with
       | some (.obj out) => outSafe out
       | _ => true) && choicesSafe kvs
  | _ => true

/-- Whether a value is a Python dict. -/
def isDict : Json → Bool
  | .obj _ => true
  | _ => false

/-- Identity endpoint success response used by the concrete runs. -/
def idOkW : HttpResp := ⟨200, some (Json.obj [("access_token", Json.str "tok")]), "ok"⟩

/-- A plain 404 response. -/
def r404W : HttpResp := ⟨404, none, "nf"⟩

/-- An endpoint answering 404 to every request. -/
def net404W : Nat → NetResult := fun _ => NetResult.response r404W

/-- An endpoint whose first request times out and which answers 404 after. -/
def netExnW : Nat → NetResult := fun i =>
  if i = 0 then NetResult.raised else NetResult.response r404W

/-- A success response whose JSON body the normalizer handles. -/
def rHelloW : HttpResp :=
  ⟨200, some (Json.obj [("output", Json.obj [("text", Json.str "Hello")])]), "RAW"⟩

/-- An endpoint accepting the first payload with the `Hello` body. -/
def netHelloW : Nat → NetResult := fun _ => NetResult.response rHelloW

/-- An endpoint answering 404 to the first request and accepting the
second with the `Hello` body. -/
def netFailThenHelloW : Nat → NetResult := fun i =>
  if i = 0 then NetResult.response r404W else NetResult.response rHelloW

/-- The JSON body on which the normalizer raises `AttributeError`. -/
def badJsonW : Json :=
  Json.obj [("output", Json.obj [("messages", Json.arr [Json.str "x"])])]

/-- A success response carrying that body, with raw text `RAW`. -/
def rBadW : HttpResp := ⟨200, some badJsonW, "RAW"⟩

/-- An endpoint accepting the first payload with the bad body. -/
def netBadW : Nat → NetResult := fun _ => NetResult.response rBadW

lemma msgsBuf_ok_of_safe : ∀ msgs, msgsSafe msgs = true → ∃ l, msgsBuf msgs = .ok l := by
  intro msgs
  induction msgs with
  | nil => exact fun _ => ⟨[], rfl⟩
  | cons m rest ih =>
      intro h
      cases m with
      | obj kvs =>
          simp only [msgsSafe, Bool.and_eq_true] at h
          obtain ⟨h1, h2⟩ := h
          obtain ⟨l, hl⟩ := ih h2
          have hfst : ∃ elems, (match objGet kvs "content" with
              | some c => if truthy c then pyIterate c else Except.ok []
              | none => Except.ok []) = Except.ok (ε := PyErr) elems := by
            rcases hc : objGet kvs "content" with _ | c
            · exact ⟨[], by simp [hc]⟩
            · simp only [hc] at h1
              rcases ht : truthy c
              · exact ⟨[], by simp [hc, ht]⟩
              · rw [ht] at h1
                simp only [Bool.not_true, Bool.false_or] at h1
                cases c with
                | arr xs => exact ⟨xs, by simp [hc, ht, pyIterate]⟩
                | str s =>
                    exact ⟨s.toList.map (fun ch => Json.str (String.mk [ch])),
                      by simp [hc, ht, pyIterate]⟩
                | obj okvs =>
                    exact ⟨okvs.map (fun kv => Json.str kv.1),
                      by simp [hc, ht, pyIterate]⟩
                | null => simp [iterSafe] at h1
                | bool b => simp [iterSafe] at h1
                | int n => simp [iterSafe] at h1
                | float q => simp [iterSafe] at h1
          obtain ⟨elems, he⟩ := hfst
          exact ⟨contentTexts elems ++ l, by simp only [msgsBuf, he, hl]⟩
      | null => simp [msgsSafe] at h
      | bool b => simp [msgsSafe] at h
      | int n => simp [msgsSafe] at h
      | float q => simp [msgsSafe] at h
      | str s => simp [msgsSafe] at h
      | arr l => simp [msgsSafe] at h

lemma tryOutputMessages_ok_of_safe (out : List (String × Json))
    (h : outSafe out = true) : ∃ o, tryOutputMessages out = .ok o := by
  rcases hm : objGet out "messages" with _ | v
  · exact ⟨none, by simp [tryOutputMessages, hm]⟩
  · cases v
    case arr msgs =>
        simp only [outSafe, hm] at h
        obtain ⟨l, hl⟩ := msgsBuf_ok_of_safe msgs h
        rcases hE : l.isEmpty
        · exact ⟨some (String.intercalate "\n\n" l),
            by simp [tryOutputMessages, hm, hl, hE]⟩
        · exact ⟨none, by simp [tryOutputMessages, hm, hl, hE]⟩
    all_goals exact ⟨none, by simp [tryOutputMessages, hm]⟩

lemma tryOutputGeneric_ok_of_safe (out : List (String × Json))
    (h : outSafe out = true) : ∃ o, tryOutputGeneric out = .ok o := by
  rcases hg : objGet out "generic" with _ | v
  · obtain ⟨o, ho⟩ := tryOutputMessages_ok_of_safe out h
    exact ⟨o, by simp [tryOutputGeneric, hg, ho]⟩
  · cases v
    case arr gen =>
        rcases hE : (contentTexts gen).isEmpty
        · exact ⟨some (String.intercalate "\n\n" (contentTexts gen)),
            by simp [tryOutputGeneric, hg, hE]⟩
        · obtain ⟨o, ho⟩ := tryOutputMessages_ok_of_safe out h
          exact ⟨o, by simp [tryOutputGeneric, hg, hE, ho]⟩
    all_goals
      obtain ⟨o, ho⟩ := tryOutputMessages_ok_of_safe out h
      exact ⟨o, by simp [tryOutputGeneric, hg, ho]⟩

lemma tryOutput_ok_of_safe (kvs : List (String × Json))
    (h : (match objGet kvs "output" with
          | some (Json.obj out) => outSafe out
          | _ => true) = true) : ∃ o, tryOutput kvs = .ok o := by
  rcases ho : objGet kvs "output" with _ | v
  · exact ⟨none, by simp [tryOutput, ho]⟩
  · cases v
    case obj out =>
        simp only [ho] at h
        rcases htx : objGet out "text" with _ | tv
        · obtain ⟨o, hg⟩ := tryOutputGeneric_ok_of_safe out h
          exact ⟨o, by simp [tryOutput, ho, htx, hg]⟩
        · cases tv
          case str t =>
              rcases hst : stripTruthy t
              · obtain ⟨o, hg⟩ := tryOutputGeneric_ok_of_safe out h
                exact ⟨o, by simp [tryOutput, ho, htx, hst, hg]⟩
              · exact ⟨some t, by simp [tryOutput, ho, htx, hst]⟩
          all_goals
            obtain ⟨o, hg⟩ := tryOutputGeneric_ok_of_safe out h
            exact ⟨o, by simp [tryOutput, ho, htx, hg]⟩
    all_goals exact ⟨none, by simp [tryOutput, ho]⟩

lemma tryChoices_ok_of_safe (kvs : List (String × Json))
    (h : choicesSafe kvs = true) : ∃ o, tryChoices kvs = .ok o := by
  rcases hc : objGet kvs "choices" with _ | v
  · exact ⟨none, by simp [tryChoices, hc]⟩
  · cases v
    case arr l =>
        rcases l with _ | ⟨hd, tl⟩
        · exact ⟨none, by simp [tryChoices, hc]⟩
        · cases hd
          case obj hkvs =>
              simp only [choicesSafe, hc] at h
              rcases hm : objGet hkvs "message" with _ | mv
              · exact ⟨none, by simp [tryChoices, hc, hm, objGet]⟩
              · simp only [hm] at h
                cases mv
                case obj mkvs =>
                    rcases hcc : objGet mkvs "content" with _ | cv
                    · exact ⟨none, by simp [tryChoices, hc, hm, hcc]⟩
                    · cases cv
                      case str s =>
                          exact ⟨if stripTruthy s then some s else none,
                            by simp [tryChoices, hc, hm, hcc]⟩
                      case arr bl =>
                          exact ⟨if (contentTexts bl).isEmpty then none
                                 else some (String.intercalate "\n\n" (contentTexts bl)),
                            by simp [tryChoices, hc, hm, hcc]⟩
                      all_goals exact ⟨none, by simp [tryChoices, hc, hm, hcc]⟩
                all_goals simp at h
          all_goals simp [choicesSafe, hc] at h
    all_goals exact ⟨none, by simp [tryChoices, hc]⟩

lemma extract_text_ok_of_safe : ∀ j, extractSafe j = true → ∃ s, extract_text j = .ok s := by
  intro j h
  cases j
  case obj kvs =>
      simp only [extractSafe, Bool.and_eq_true] at h
      obtain ⟨o1, h1⟩ := tryOutput_ok_of_safe kvs h.1
      obtain ⟨o2, h2⟩ := tryChoices_ok_of_safe kvs h.2
      rcases o1 with _ | s1
      · rcases o2 with _ | s2
        · rcases hr : tryResults kvs with _ | s3
          · exact ⟨dumps2 (Json.obj kvs) 0, by simp [extract_text, h1, h2, hr]⟩
          · exact ⟨s3, by simp [extract_text, h1, h2, hr]⟩
        · exact ⟨s2, by simp [extract_text, h1, h2]⟩
      · exact ⟨s1, by simp [extract_text, h1]⟩
  all_goals exact ⟨_, rfl⟩

/-- C3 (corrected): `extract_text` is total on every JSON input whose
`output.messages` entries are dicts with iterable-or-falsy `content` and
whose non-empty `choices` list starts with a dict whose `message` value,
when present, is a dict; on such inputs it returns a string, and when no
recognized text field matches it returns the indented JSON dump of the
whole input.  (On other inputs it can raise, see the counterexample.) -/
theorem extract_text_total_on_safe :
    (∀ j, extractSafe j = true → ∃ s, extract_text j = .ok s) ∧
    (∀ kvs, tryOutput kvs = .ok none → tryChoices kvs = .ok none →
      tryResults kvs = none →
      extract_text (Json.obj kvs) = .ok (dumps2 (Json.obj kvs) 0)) ∧
    (∀ j, isDict j = false → extract_text j = .ok (dumps2 j 0)) :=
  ⟨extract_text_ok_of_safe,
   fun kvs h1 h2 h3 => by simp [extract_text, h1, h2, h3],
   fun j h => by cases j <;> first | rfl | simp [isDict] at h⟩

/-- Witness for C3: a concrete safe input on which the theorem applies. -/
theorem extract_text_total_on_safe_witness :
    ∃ s, extract_text (Json.obj [("output", Json.obj [("messages", Json.arr
      [Json.obj [("content", Json.arr [Json.obj [("text", Json.str "ok")]])]])])]) =
      .ok s :=
  extract_text_total_on_safe.1 _ rfl

/-- Counterexample to C3 as stated: on `{"output": {"messages": ["hi"]}}`
the Python code calls `.get` on the string `"hi"` and raises
`AttributeError`, so `extract_text` is not total on all JSON-like inputs. -/
theorem extract_text_raises_cex :
    extract_text (Json.obj [("output", Json.obj
      [("messages", Json.arr [Json.str "hi"])])]) = .error PyErr.attributeError :=
  rfl

/-- C4: the recognition cascade is first-match-wins: the four example
shapes evaluate as the spec states, and any input whose `output.text` is a
non-blank string yields exactly that string no matter what other
recognized fields are present. -/
theorem extract_text_priority_cascade :
    extract_text (Json.obj [("output", Json.obj [("text", Json.str "Hello")])]) =
      .ok "Hello" ∧
    extract_text (Json.obj [("choices", Json.arr [Json.obj [("message",
      Json.obj [("content", Json.str "Hi there")])]])]) = .ok "Hi there" ∧
    extract_text (Json.obj [("results", Json.arr [Json.obj [("generated_text",
      Json.str "Plan ready")]])]) = .ok "Plan ready" ∧
    extract_text (Json.obj [("foo", Json.int 1)]) =
      .ok "\x7b\n  \"foo\": 1\n\x7d" ∧
    (∀ kvs out t, objGet kvs "output" = some (Json.obj out) →
      objGet out "text" = some (Json.str t) → stripTruthy t = true →
      extract_text (Json.obj kvs) = .ok t) :=
  ⟨rfl, rfl, rfl, rfl,
   fun kvs out t h1 h2 h3 => by simp [extract_text, tryOutput, h1, h2, h3]⟩

/-- Witness for C4: `output.text` wins even when `results` is present. -/
theorem extract_text_priority_cascade_witness :
    extract_text (Json.obj [("output", Json.obj [("text", Json.str "Hello")]),
      ("results", Json.arr [Json.obj [("generated_text", Json.str "Ignored")]])]) =
      .ok "Hello" :=
  extract_text_priority_cascade.2.2.2.2 _ _ _ rfl rfl rfl

/-- C9: `extract_text` and `candidate_payloads` are pure Lean functions of
their arguments, so repeated calls agree, and the candidate list is the
same fixed 7-element sequence for any given inputs. -/
theorem extract_text_and_payloads_deterministic :
    (∀ j, extract_text j = extract_text j) ∧
    (∀ u v, candidate_payloads u v = candidate_payloads u v) ∧
    (∀ u v, (candidate_payloads u v).length = 7) :=
  ⟨fun _ => rfl, fun _ _ => rfl, fun _ _ => rfl⟩

/-- C10: `num_from_str` keeps the digit and dot characters in order and
converts the concatenation: `"6'2\""` gives 62, `"1.75 m"` gives 1.75;
it returns `none` exactly when the concatenation has no digit or more than
one dot, and `build_profile` then omits the key. -/
theorem num_from_str_digit_dot_concat :
    num_from_str "6\x272\x22" = some 62 ∧
    num_from_str "1.75 m" = some ((7 : Rat) / 4) ∧
    num_from_str "1.2.3" = none ∧
    num_from_str "abc" = none ∧
    (∀ s, num_from_str s = none ↔
      ((s.toList.filter (fun c => c.isDigit || c = '.')).any Char.isDigit = false ∨
       2 ≤ (s.toList.filter (fun c => c.isDigit || c = '.')).count '.')) ∧
    objGet (build_profile [("height", Json.str "1.2.3")]) "height_cm" = none := by
  refine ⟨?_, ?_, by decide, by decide, ?_, rfl⟩
  · simp +decide [num_from_str, pyFloatOfFiltered, digitsVal, List.filter, List.foldl]
  · simp +decide [num_from_str, pyFloatOfFiltered, digitsVal, List.filter, List.foldl]
    norm_num
  · intro s
    simp only [num_from_str, pyFloatOfFiltered]
    generalize (s.toList.filter (fun c => c.isDigit || c = '.')) = l
    rcases ha : l.any Char.isDigit
    · simp
    · by_cases hb : l.count '.' ≤ 1
      · have hb2 : decide (l.count '.' ≤ 1) = true := decide_eq_true hb
        rw [hb2]
        simp
        omega
      · have hb2 : decide (l.count '.' ≤ 1) = false := decide_eq_false hb
        rw [hb2]
        simp
        omega

lemma dropNone_cons_some_ne (k : String) (v : Json) (rest : List (String × Option Json))
    (h : v ≠ Json.null) :
    dropNone ((k, some v) :: rest) = (k, v) :: dropNone rest := by
  cases v
  case null => exact absurd rfl h
  all_goals rfl

lemma objGet_dropNone_ne (k : String) (v : Option Json)
    (rest : List (String × Option Json)) (key : String) (h : k ≠ key) :
    objGet (dropNone ((k, v) :: rest)) key = objGet (dropNone rest) key := by
  cases v with
  | none => rfl
  | some x => cases x <;> simp [dropNone, objGet, h]

lemma objGet_dropNone_ne_null (l : List (String × Option Json)) (key : String) :
    objGet (dropNone l) key ≠ some Json.null := by
  induction l with
  | nil => simp [dropNone, objGet]
  | cons e rest ih =>
      obtain ⟨ek, ev⟩ := e
      cases ev with
      | none => simpa [dropNone] using ih
      | some x =>
          cases x <;> simp only [dropNone, objGet] <;>
            first
            | exact ih
            | (split
               · simp
               · exact ih)

/-- C7: when all six raw fields are present and well-formed,
`build_profile` returns all six keys with the parsed numeric height and
weight; a missing or unparseable field's key is absent from the result,
and no key of the result is ever mapped to a null value. -/
theorem build_profile_fields :
    (∀ side av sv hs hq ws wq cv gv,
      objGet side "age" = some av → av ≠ Json.null →
      objGet side "sex" = some sv → sv ≠ Json.null →
      objGet side "height" = some (Json.str hs) → num_from_str hs = some hq →
      objGet side "weight" = some (Json.str ws) → num_from_str ws = some wq →
      objGet side "activity" = some cv → cv ≠ Json.null →
      objGet side "goal" = some gv → gv ≠ Json.null →
      build_profile side =
        [("age", av), ("sex", sv), ("height_cm", Json.float hq),
         ("weight_kg", Json.float wq), ("activity", cv), ("goal", gv)]) ∧
    (∀ side, objGet side "age" = none → objGet (build_profile side) "age" = none) ∧
    (∀ side, objGet side "sex" = none → objGet (build_profile side) "sex" = none) ∧
    (∀ side, getHW side "height" = none →
      objGet (build_profile side) "height_cm" = none) ∧
    (∀ side, getHW side "weight" = none →
      objGet (build_profile side) "weight_kg" = none) ∧
    (∀ side, objGet side "activity" = none →
      objGet (build_profile side) "activity" = none) ∧
    (∀ side, objGet side "goal" = none → objGet (build_profile side) "goal" = none) ∧
    (∀ side key, objGet (build_profile side) key ≠ some Json.null) := by
  refine ⟨?_, ?_, ?_, ?_, ?_, ?_, ?_, ?_⟩
  · intro side av sv hs hq ws wq cv gv ha han hsx hsxn hh hhq hw hwq hac hacn hg hgn
    simp only [build_profile, getHW, ha, hsx, hh, hhq, hw, hwq, hac, hg,
      Option.map_some']
    rw [dropNone_cons_some_ne _ _ _ han, dropNone_cons_some_ne _ _ _ hsxn,
        dropNone_cons_some_ne _ _ _ (fun hx => Json.noConfusion hx),
        dropNone_cons_some_ne _ _ _ (fun hx => Json.noConfusion hx),
        dropNone_cons_some_ne _ _ _ hacn, dropNone_cons_some_ne _ _ _ hgn]
    rfl
  · intro side h
    simp only [build_profile, h]
    rw [show dropNone (("age", (none : Option Json)) ::
          [("sex", objGet side "sex"),
           ("height_cm", (getHW side "height").map Json.float),
           ("weight_kg", (getHW side "weight").map Json.float),
           ("activity", objGet side "activity"),
           ("goal", objGet side "goal")]) =
        dropNone [("sex", objGet side "sex"),
           ("height_cm", (getHW side "height").map Json.float),
           ("weight_kg", (getHW side "weight").map Json.float),
           ("activity", objGet side "activity"),
           ("goal", objGet side "goal")] from rfl]
    rw [objGet_dropNone_ne _ _ _ _ (by decide), objGet_dropNone_ne _ _ _ _ (by decide),
        objGet_dropNone_ne _ _ _ _ (by decide), objGet_dropNone_ne _ _ _ _ (by decide),
        objGet_dropNone_ne _ _ _ _ (by decide)]
    rfl
  · intro side h
    simp only [build_profile, h]
    rw [objGet_dropNone_ne _ _ _ _ (by decide)]
    rw [show dropNone (("sex", (none : Option Json)) ::
          [("height_cm", (getHW side "height").map Json.float),
           ("weight_kg", (getHW side "weight").map Json.float),
           ("activity", objGet side "activity"),
           ("goal", objGet side "goal")]) =
        dropNone [("height_cm", (getHW side "height").map Json.float),
           ("weight_kg", (getHW side "weight").map Json.float),
           ("activity", objGet side "activity"),
           ("goal", objGet side "goal")] from rfl]
    rw [objGet_dropNone_ne _ _ _ _ (by decide), objGet_dropNone_ne _ _ _ _ (by decide),
        objGet_dropNone_ne _ _ _ _ (by decide), objGet_dropNone_ne _ _ _ _ (by decide)]
    rfl
  · intro side h
    simp only [build_profile, h, Option.map_none']
    rw [objGet_dropNone_ne _ _ _ _ (by decide), objGet_dropNone_ne _ _ _ _ (by decide)]
    rw [show dropNone (("height_cm", (none : Option Json)) ::
          [("weight_kg", (getHW side "weight").map Json.float),
           ("activity", objGet side "activity"),
           ("goal", objGet side "goal")]) =
        dropNone [("weight_kg", (getHW side "weight").map Json.float),
           ("activity", objGet side "activity"),
           ("goal", objGet side "goal")] from rfl]
    rw [objGet_dropNone_ne _ _ _ _ (by decide), objGet_dropNone_ne _ _ _ _ (by decide),
        objGet_dropNone_ne _ _ _ _ (by decide)]
    rfl
  · intro side h
    simp only [build_profile, h, Option.map_none']
    rw [objGet_dropNone_ne _ _ _ _ (by decide), objGet_dropNone_ne _ _ _ _ (by decide),
        objGet_dropNone_ne _ _ _ _ (by decide)]
    rw [show dropNone (("weight_kg", (none : Option Json)) ::
          [("activity", objGet side "activity"),
           ("goal", objGet side "goal")]) =
        dropNone [("activity", objGet side "activity"),
           ("goal", objGet side "goal")] from rfl]
    rw [objGet_dropNone_ne _ _ _ _ (by decide), objGet_dropNone_ne _ _ _ _ (by decide)]
    rfl
  · intro side h
    simp only [build_profile, h]
    rw [objGet_dropNone_ne _ _ _ _ (by decide), objGet_dropNone_ne _ _ _ _ (by decide),
        objGet_dropNone_ne _ _ _ _ (by decide), objGet_dropNone_ne _ _ _ _ (by decide)]
    rw [show dropNone (("activity", (none : Option Json)) ::
          [("goal", objGet side "goal")]) =
        dropNone [("goal", objGet side "goal")] from rfl]
    rw [objGet_dropNone_ne _ _ _ _ (by decide)]
    rfl
  · intro side h
    simp only [build_profile, h]
    rw [objGet_dropNone_ne _ _ _ _ (by decide), objGet_dropNone_ne _ _ _ _ (by decide),
        objGet_dropNone_ne _ _ _ _ (by decide), objGet_dropNone_ne _ _ _ _ (by decide),
        objGet_dropNone_ne _ _ _ _ (by decide)]
    rfl
  · intro side key
    exact objGet_dropNone_ne_null _ _

/-- Witness for C7: a fully populated raw mapping yields all six keys. -/
theorem build_profile_fields_witness :
    build_profile [("age", Json.int 30), ("sex", Json.str "female"),
      ("height", Json.str "175 cm"), ("weight", Json.str "78 kg"),
      ("activity", Json.str "light"), ("goal", Json.str "gain")] =
      [("age", Json.int 30), ("sex", Json.str "female"),
       ("height_cm", Json.float 175), ("weight_kg", Json.float 78),
       ("activity", Json.str "light"), ("goal", Json.str "gain")] :=
  build_profile_fields.1 _ _ _ _ _ _ _ _ _ rfl (fun hx => Json.noConfusion hx)
    rfl (fun hx => Json.noConfusion hx)
    rfl (by simp +decide [num_from_str, pyFloatOfFiltered, digitsVal, List.filter, List.foldl])
    rfl (by simp +decide [num_from_str, pyFloatOfFiltered, digitsVal, List.filter, List.foldl])
    rfl (fun hx => Json.noConfusion hx) rfl (fun hx => Json.noConfusion hx)

/-- C6: when the token step fails, `call_agent` propagates the same
`AuthErr` and posts no payload at all. -/
theorem call_agent_auth_error_no_attempts (url : String) (idResp : HttpResp)
    (net : Nat → NetResult) (u : String) (pv : List (String × Json)) (sp : Bool)
    (e : AuthErr) (h : get_iam_token idResp = .error e) :
    call_agent url idResp net u pv sp = (.authError e, []) := by
  simp [call_agent, h]

/-- Witness for C6: a 500 from the identity endpoint aborts the call with
no payload attempted. -/
theorem call_agent_auth_error_no_attempts_witness :
    call_agent "u" ⟨500, none, "boom"⟩ (fun _ => NetResult.raised) "hi" [] true =
      (.authError (.httpError 500), []) :=
  call_agent_auth_error_no_attempts _ _ _ _ _ _ _ rfl

lemma callLoop_trace_mem (url : String) (net : Nat → NetResult) :
    ∀ ps i lp le p, p ∈ (callLoop url net ps i lp le).2 → p ∈ ps := by
  intro ps
  induction ps with
  | nil => intro i lp le p h; simp [callLoop] at h
  | cons q rest ih =>
      intro i lp le p h
      rcases hn : net i with r | _
      · rcases hok : respOk r
        · simp only [callLoop, hn, hok, Bool.false_eq_true, if_false,
            List.mem_cons] at h
          rcases h with h | h
          · exact h ▸ List.mem_cons_self q rest
          · exact List.mem_cons_of_mem q (ih _ _ _ p h)
        · simp only [callLoop, hn, hok, if_true, List.mem_singleton] at h
          exact h ▸ List.mem_cons_self q rest
      · simp only [callLoop, hn, List.mem_singleton] at h
        exact h ▸ List.mem_cons_self q rest

/-- C8: every payload `call_agent` posts comes from the candidate list
built with the `variables` mapping, and that mapping is empty unless the
profile is both sent and non-empty, in which case it is exactly the
profile wrapped under the single key `profile`. -/
theorem call_agent_variables_wrapping (url : String) (idResp : HttpResp)
    (net : Nat → NetResult) (u : String) (pv : List (String × Json)) (sp : Bool) :
    (∀ p ∈ (call_agent url idResp net u pv sp).2,
      p ∈ candidate_payloads u (mkVariables sp pv)) ∧
    (sp = false → mkVariables sp pv = []) ∧
    (pv = [] → mkVariables sp pv = []) ∧
    (sp = true → pv ≠ [] → mkVariables sp pv = [("profile", Json.obj pv)]) := by
  refine ⟨?_, ?_, ?_, ?_⟩
  · intro p hp
    rcases ht : get_iam_token idResp with e | t
    · rw [call_agent, ht] at hp
      simp at hp
    · rw [call_agent, ht] at hp
      exact callLoop_trace_mem url net _ 0 none none p hp
  · intro h
    simp [mkVariables, h]
  · intro h
    simp [mkVariables, h]
  · intro h hne
    rcases pv with _ | ⟨e, rest⟩
    · exact absurd rfl hne
    · simp [mkVariables, h]

/-- Witness for C8: with the profile sent and non-empty, the variables
mapping is the profile wrapped under `profile`. -/
theorem call_agent_variables_wrapping_witness :
    mkVariables true [("age", Json.int 30)] =
      [("profile", Json.obj [("age", Json.int 30)])] :=
  (call_agent_variables_wrapping "u" ⟨500, none, "x"⟩ (fun _ => NetResult.raised)
    "hi" [("age", Json.int 30)] true).2.2.2 rfl (by simp)

lemma callLoop_error_all_failed (url : String) (net : Nat → NetResult) :
    ∀ ps i lp le u2 lp2 le2,
      (callLoop url net ps i lp le).1 = .agentCallError u2 lp2 le2 →
      (callLoop url net ps i lp le).2 = ps ∧
      ∀ k, k < ps.length → ∃ r, net (i + k) = .response r ∧ respOk r = false := by
  intro ps
  induction ps with
  | nil =>
      intro i lp le u2 lp2 le2 _
      exact ⟨rfl, fun k hk => absurd hk (by simp)⟩
  | cons q rest ih =>
      intro i lp le u2 lp2 le2 h
      rcases hn : net i with r | _
      · rcases hok : respOk r
        · simp only [callLoop, hn, hok, Bool.false_eq_true, if_false] at h ⊢
          obtain ⟨htr, hall⟩ := ih (i + 1) (some q) (some (mkLastErr r)) u2 lp2 le2 h
          refine ⟨by rw [htr], ?_⟩
          intro k hk
          cases k with
          | zero => exact ⟨r, by simpa using hn, hok⟩
          | succ k2 =>
              obtain ⟨r2, h2, h2f⟩ := hall k2 (by simpa using hk)
              exact ⟨r2, by rw [show i + (k2 + 1) = i + 1 + k2 by omega]; exact h2, h2f⟩
        · simp only [callLoop, hn, hok, if_true] at h
          exact absurd h (by simp)
      · simp only [callLoop, hn] at h
        exact absurd h (by simp)

lemma callLoop_raised_at (url : String) (net : Nat → NetResult) :
    ∀ ps i lp le j, j < ps.length → net (i + j) = .raised →
      (∀ k, k < j → ∃ r, net (i + k) = .response r ∧ respOk r = false) →
      (callLoop url net ps i lp le).1 = .raised ∧
      (callLoop url net ps i lp le).2.length = j + 1 := by
  intro ps
  induction ps with
  | nil => intro i lp le j hj _ _; simp at hj
  | cons q rest ih =>
      intro i lp le j hj hraise hfail
      cases j with
      | zero =>
          have h0 : net i = .raised := by simpa using hraise
          constructor <;> simp [callLoop, h0]
      | succ j2 =>
          obtain ⟨r, hr, hrf⟩ := hfail 0 (by omega)
          have hr2 : net i = .response r := by simpa using hr
          have ihres := ih (i + 1) (some q) (some (mkLastErr r)) j2 (by simpa using hj)
            (by rw [show i + 1 + j2 = i + (j2 + 1) by omega]; exact hraise)
            (fun k hk => by
              obtain ⟨r2, h2, h2f⟩ := hfail (k + 1) (by omega)
              exact ⟨r2, by rw [show i + 1 + k = i + (k + 1) by omega]; exact h2, h2f⟩)
          constructor
          · simp only [callLoop, hr2, hrf, Bool.false_eq_true, if_false]
            exact ihres.1
          · simp only [callLoop, hr2, hrf, Bool.false_eq_true, if_false,
              List.length_cons]
            rw [ihres.2]

/-- C1 (corrected): `call_agent` reaches the `AgentCallError` outcome only
after all 7 candidate payloads were posted and each drew a non-success
HTTP status; but a timeout or transport error on a candidate is not a
per-candidate failure: the exception propagates at once and the remaining
candidates are never attempted. -/
theorem call_agent_error_only_after_all (url : String) (idResp : HttpResp)
    (net : Nat → NetResult) (u : String) (pv : List (String × Json)) (sp : Bool) :
    (∀ u2 lp2 le2,
      (call_agent url idResp net u pv sp).1 = .agentCallError u2 lp2 le2 →
      (call_agent url idResp net u pv sp).2 =
        candidate_payloads u (mkVariables sp pv) ∧
      ∀ k, k < 7 → ∃ r, net k = .response r ∧ respOk r = false) ∧
    (∀ t j, get_iam_token idResp = .ok t → j < 7 → net j = .raised →
      (∀ k, k < j → ∃ r, net k = .response r ∧ respOk r = false) →
      (call_agent url idResp net u pv sp).1 = .raised ∧
      (call_agent url idResp net u pv sp).2.length = j + 1) := by
  constructor
  · intro u2 lp2 le2 h
    rcases ht : get_iam_token idResp with e | t
    · rw [call_agent, ht] at h
      exact absurd h (by simp)
    · simp only [call_agent, ht] at h ⊢
      obtain ⟨htr, hall⟩ := callLoop_error_all_failed url net _ 0 none none u2 lp2 le2 h
      refine ⟨htr, fun k hk => ?_⟩
      have hlen : k < (candidate_payloads u (mkVariables sp pv)).length := by
        simpa [candidate_payloads] using hk
      obtain ⟨r, hr, hrf⟩ := hall k hlen
      exact ⟨r, by simpa using hr, hrf⟩
  · intro t j ht hj hraise hfail
    simp only [call_agent, ht]
    exact callLoop_raised_at url net _ 0 none none j
      (by simpa [candidate_payloads] using hj) (by simpa using hraise)
      (fun k hk => by simpa using hfail k hk)


/-- Witness for C1: with every candidate drawing a 404, the error outcome
is reached with the full candidate list posted. -/
theorem call_agent_error_only_after_all_witness :
    (call_agent "u" idOkW net404W "hi" [] false).2 =
      candidate_payloads "hi" (mkVariables false []) :=
  ((call_agent_error_only_after_all "u" idOkW net404W "hi" [] false).1
    "u"
    (some (Json.obj [("input", Json.obj
        [("text", Json.str "hi"), ("variables", Json.obj [])])]))
    (some (mkLastErr r404W))
    rfl).1

/-- Counterexample to C1 as stated: a transport error on the first
candidate propagates immediately — only one payload is posted and the
outcome is the raised exception, not `AgentCallError` after 7 attempts. -/
theorem call_agent_transport_abort_cex :
    (call_agent "u" idOkW netExnW "hi" [] false).1 = CallOutcome.raised ∧
    (call_agent "u" idOkW netExnW "hi" [] false).2.length = 1 :=
  ⟨rfl, rfl⟩

/-- C2: when every one of the 7 candidates draws a non-success status, the
error outcome carries the endpoint URL, the last payload attempted — the
7th, minimal `input.text` shape — and the last status code with the
response body (parsed JSON if available, else the first 1500 characters of
the raw text). -/
theorem call_agent_all_fail_diagnostics (url : String) (idResp : HttpResp)
    (net : Nat → NetResult) (u : String) (pv : List (String × Json)) (sp : Bool)
    (t : Json) (R : Nat → HttpResp)
    (htok : get_iam_token idResp = .ok t)
    (hall : ∀ k, k < 7 → net k = .response (R k) ∧ 400 ≤ (R k).status) :
    (call_agent url idResp net u pv sp).1 =
      .agentCallError url
        (some (Json.obj [("input", Json.obj
            [("text", Json.str u), ("variables", Json.obj (mkVariables sp pv))])]))
        (some (mkLastErr (R 6))) ∧
    jGet (mkLastErr (R 6)) "status_code" = some (Json.int ((R 6).status : Int)) ∧
    ((R 6).jsonBody = none →
      jGet (mkLastErr (R 6)) "body" = some (Json.str ((R 6).text.take 1500))) := by
  obtain ⟨e0, s0⟩ := hall 0 (by omega)
  obtain ⟨e1, s1⟩ := hall 1 (by omega)
  obtain ⟨e2, s2⟩ := hall 2 (by omega)
  obtain ⟨e3, s3⟩ := hall 3 (by omega)
  obtain ⟨e4, s4⟩ := hall 4 (by omega)
  obtain ⟨e5, s5⟩ := hall 5 (by omega)
  obtain ⟨e6, s6⟩ := hall 6 (by omega)
  have f0 : respOk (R 0) = false := by simp only [respOk, decide_eq_false_iff_not]; omega
  have f1 : respOk (R 1) = false := by simp only [respOk, decide_eq_false_iff_not]; omega
  have f2 : respOk (R 2) = false := by simp only [respOk, decide_eq_false_iff_not]; omega
  have f3 : respOk (R 3) = false := by simp only [respOk, decide_eq_false_iff_not]; omega
  have f4 : respOk (R 4) = false := by simp only [respOk, decide_eq_false_iff_not]; omega
  have f5 : respOk (R 5) = false := by simp only [respOk, decide_eq_false_iff_not]; omega
  have f6 : respOk (R 6) = false := by simp only [respOk, decide_eq_false_iff_not]; omega
  refine ⟨?_, by simp [mkLastErr, jGet, objGet], fun hb => by simp [mkLastErr, jGet, objGet, hb]⟩
  simp only [call_agent, htok, candidate_payloads]
  simp [callLoop, e0, f0, e1, f1, e2, f2, e3, f3, e4, f4, e5, f5, e6, f6]

/-- Witness for C2: all 7 candidates draw 404; the error carries the 7th
(minimal `input.text`) payload and the 404 diagnostic record. -/
theorem call_agent_all_fail_diagnostics_witness :
    (call_agent "u" idOkW net404W "hi" [] false).1 =
      .agentCallError "u"
        (some (Json.obj [("input", Json.obj
            [("text", Json.str "hi"), ("variables", Json.obj (mkVariables false []))])]))
        (some (mkLastErr r404W)) :=
  (call_agent_all_fail_diagnostics "u" idOkW net404W "hi" [] false (Json.str "tok")
    (fun _ => r404W) rfl (fun k hk => ⟨rfl, by norm_num [r404W]⟩)).1

lemma callLoop_success_at (url : String) (net : Nat → NetResult) :
    ∀ ps i lp le j r, j < ps.length → net (i + j) = .response r →
      respOk r = true →
      (∀ k, k < j → ∃ r2, net (i + k) = .response r2 ∧ respOk r2 = false) →
      (callLoop url net ps i lp le).1 = .reply (successReply r) ∧
      (callLoop url net ps i lp le).2 = ps.take (j + 1) := by
  intro ps
  induction ps with
  | nil => intro i lp le j r hj _ _ _; simp at hj
  | cons q rest ih =>
      intro i lp le j r hj hjr hok hfail
      cases j with
      | zero =>
          have h0 : net i = .response r := by simpa using hjr
          constructor <;> simp [callLoop, h0, hok]
      | succ j2 =>
          obtain ⟨r0, hr0, hr0f⟩ := hfail 0 (by omega)
          have hr2 : net i = .response r0 := by simpa using hr0
          have ihres := ih (i + 1) (some q) (some (mkLastErr r0)) j2 r
            (by simpa using hj)
            (by rw [show i + 1 + j2 = i + (j2 + 1) by omega]; exact hjr) hok
            (fun k hk => by
              obtain ⟨r3, h3, h3f⟩ := hfail (k + 1) (by omega)
              exact ⟨r3, by rw [show i + 1 + k = i + (k + 1) by omega]; exact h3, h3f⟩)
          constructor
          · simp only [callLoop, hr2, hr0f, Bool.false_eq_true, if_false]
            exact ihres.1
          · simp only [callLoop, hr2, hr0f, Bool.false_eq_true, if_false,
              List.take_succ_cons]
            rw [ihres.2]

/-- C5 (corrected): on the first candidate that draws an HTTP success —
wherever it falls in the probing sequence — `call_agent` returns at once,
posting exactly the candidates up to and including the successful one and
never any later candidate; the reply is the normalizer output when the
body parses as JSON and the normalizer succeeds on it, and the raw
response text when the body is not JSON or the normalizer raises (the
bare `except` catches both). -/
theorem call_agent_first_success_returns (url : String) (idResp : HttpResp)
    (net : Nat → NetResult) (u : String) (pv : List (String × Json)) (sp : Bool)
    (t : Json) (j : Nat) (r : HttpResp)
    (htok : get_iam_token idResp = .ok t) (hj : j < 7)
    (hjr : net j = .response r) (hok : respOk r = true)
    (hfail : ∀ k, k < j → ∃ r2, net k = .response r2 ∧ respOk r2 = false) :
    (call_agent url idResp net u pv sp).1 = .reply (successReply r) ∧
    (call_agent url idResp net u pv sp).2 =
      (candidate_payloads u (mkVariables sp pv)).take (j + 1) ∧
    (r.jsonBody = none → successReply r = r.text) ∧
    (∀ jx s, r.jsonBody = some jx → extract_text jx = .ok s →
      successReply r = s) ∧
    (∀ jx e2, r.jsonBody = some jx → extract_text jx = .error e2 →
      successReply r = r.text) := by
  have hmain := callLoop_success_at url net
    (candidate_payloads u (mkVariables sp pv)) 0 none none j r
    (by simpa [candidate_payloads] using hj) (by simpa using hjr) hok
    (fun k hk => by simpa using hfail k hk)
  refine ⟨?_, ?_, ?_, ?_, ?_⟩
  · simp only [call_agent, htok]
    exact hmain.1
  · simp only [call_agent, htok]
    exact hmain.2
  · intro hb
    simp [successReply, hb]
  · intro jx s hb hx
    simp [successReply, hb, hx]
  · intro jx e2 hb hx
    simp [successReply, hb, hx]

/-- Witness for C5: the first candidate draws a 404, the second an HTTP
success — the call returns the normalizer output at once and exactly the
first two payloads were posted. -/
theorem call_agent_first_success_returns_witness :
    (call_agent "u" idOkW netFailThenHelloW "hi" [] false).1 =
      CallOutcome.reply (successReply rHelloW) ∧
    (call_agent "u" idOkW netFailThenHelloW "hi" [] false).2 =
      (candidate_payloads "hi" (mkVariables false [])).take 2 :=
  ⟨(call_agent_first_success_returns "u" idOkW netFailThenHelloW "hi" [] false
      (Json.str "tok") 1 rHelloW rfl (by omega) rfl rfl
      (fun k hk => by
        have hk0 : k = 0 := by omega
        subst hk0
        exact ⟨r404W, rfl, rfl⟩)).1,
   (call_agent_first_success_returns "u" idOkW netFailThenHelloW "hi" [] false
      (Json.str "tok") 1 rHelloW rfl (by omega) rfl rfl
      (fun k hk => by
        have hk0 : k = 0 := by omega
        subst hk0
        exact ⟨r404W, rfl, rfl⟩)).2.1⟩

/-- Counterexample to C5 as stated: the success body parses as JSON, yet
the reply is the raw text because the normalizer raises on that JSON — the
returned value is not a normalizer output. -/
theorem call_agent_success_raw_cex :
    (call_agent "u" idOkW netBadW "hi" [] false).1 = CallOutcome.reply "RAW" ∧
    extract_text badJsonW = .error PyErr.attributeError :=
  ⟨rfl, rfl⟩
